import Mathlib

/-!
Shallow embedding of src/src/equinix_smartview_mcp/server.py: the
SmartViewClient OAuth token lifecycle (authenticate, refresh_access_token,
ensure_valid_token), the query-parameter normalizer _clean_params, the
authenticated request primitive, and the get_current_power endpoint method.

Modelling conventions:
- Python scalar values that appear as query-parameter values in this program
  (str, int, bool, None, and lists of scalars) are the `Scalar`/`PValue`
  inductives; Python str() on a scalar is `pyStr`.
- `datetime.now()` instants are integers (seconds); `timedelta(seconds=k)`
  is integer addition.
- Network I/O is an oracle: an `Env` supplies the responses the two token
  endpoints would return, and data-endpoint responses are passed as an
  explicit argument.  Every operation returns, besides its result, the
  post-call token state and the trace of HTTP calls it issued.
- Raised exceptions become `Except.error`; a Python exception leaves the
  object's fields as they were, so the post-state on error is the pre-state.
-/

namespace SmartView

/-- Python scalar values used as query parameters by this program. -/
inductive Scalar
  | str (s : String)
  | int (n : Int)
  | bool (b : Bool)
deriving DecidableEq, Repr

/-- A query-parameter value: None, a scalar, or a list of scalars. -/
inductive PValue
  | none
  | scalar (v : Scalar)
  | vlist (xs : List Scalar)
deriving DecidableEq, Repr

/-- Python str() applied to a scalar, as done by the list-join in
_clean_params: str on a string is the identity, on an int its decimal
rendering, on a bool the words True and False. -/
def pyStr : Scalar → String
  | Scalar.str s => s
  | Scalar.int n => toString n
  | Scalar.bool b => if b then "True" else "False"

/-- Python dict assignment cleaned[key] = v on an insertion-ordered dict
modelled as an association list: update in place if the key exists, else
append at the end. -/
def dictInsert : List (String × PValue) → String → PValue → List (String × PValue)
  | [], k, v => [(k, v)]
  | kv :: rest, k, v =>
      if kv.1 = k then (k, v) :: rest else kv :: dictInsert rest k v

/-- One iteration of the loop in SmartViewClient._clean_params
(server.py lines 113-120): keep the entry unless its value is None, the
empty string, or the empty list (Python cross-type equality makes
0 != "" and False != "" both true, so those are kept); a list value is
replaced by the comma-join of the str() of its elements. -/
def cleanStep (cleaned : List (String × PValue)) (kv : String × PValue) :
    List (String × PValue) :=
  if kv.2 ≠ PValue.none ∧ kv.2 ≠ PValue.scalar (Scalar.str "") ∧
      kv.2 ≠ PValue.vlist [] then
    match kv.2 with
    | PValue.vlist xs =>
        dictInsert cleaned kv.1
          (PValue.scalar (Scalar.str (String.intercalate "," (xs.map pyStr))))
    | v => dictInsert cleaned kv.1 v
  else cleaned

/-- SmartViewClient._clean_params (server.py lines 111-120): fold the loop
body over the entries, starting from the empty dict. -/
def _clean_params (params : List (String × PValue)) : List (String × PValue) :=
  params.foldl cleanStep []

/-- Specification-side description of what happens to one value:
dropped when None, empty string or empty list; a list becomes the
comma-join of its elements; any other value passes through. -/
def cleanValue : PValue → Option PValue
  | PValue.none => Option.none
  | PValue.scalar (Scalar.str "") => Option.none
  | PValue.vlist [] => Option.none
  | PValue.vlist xs =>
      Option.some (PValue.scalar (Scalar.str (String.intercalate "," (xs.map pyStr))))
  | v => Option.some v

/-- Body of a response from either OAuth token endpoint, as the code reads
it: data["access_token"] (required), data.get("refresh_token") (optional),
data.get("token_timeout", 3600) coerced with int(). -/
structure TokenResponse where
  access_token : String
  refresh_token : Option String
  token_timeout : Option Int
deriving DecidableEq, Repr

/-- An httpx.HTTPError: either an HTTPStatusError raised by
raise_for_status, carrying the response, or a transport-level failure. -/
inductive HttpErr
  | statusError (status : Int) (text : String)
  | transportError (msg : String)
deriving DecidableEq, Repr

/-- The mutable token fields of SmartViewClient: access_token,
refresh_token (both Optional str) and token_expiry (Optional datetime,
modelled as an integer instant). -/
structure TokenState where
  access_token : Option String
  refresh_token : Option String
  token_expiry : Option Int
deriving DecidableEq, Repr

/-- The state the constructor leaves the three token fields in. -/
def TokenState.empty : TokenState := ⟨Option.none, Option.none, Option.none⟩

/-- Python truthiness of an Optional str field, as tested by
`if not self.refresh_token` and `if not self.access_token`:
None and the empty string are falsy. -/
def pyTruthyStr : Option String → Bool
  | Option.none => false
  | Option.some s => decide (s ≠ "")

/-- The oracle for one round of calls: the current instant
(datetime.now()) and the responses the two token endpoints would give. -/
structure Env where
  now : Int
  tokenResp : Except HttpErr TokenResponse
  refreshResp : Except HttpErr TokenResponse

/-- One outbound HTTP request, recorded in issue order. -/
inductive Call
  | tokenEndpoint
  | refreshEndpoint
  | dataEndpoint (method : String) (endpoint : String)
      (params : List (String × PValue))
deriving DecidableEq, Repr

/-- Does a recorded call hit a data endpoint (anything that is not one of
the two OAuth endpoints)? -/
def Call.isData : Call → Bool
  | Call.dataEndpoint _ _ _ => true
  | _ => false

/-- The Exception("OAuth authentication failed: ...") raised by
authenticate, carrying the underlying httpx error. -/
inductive AuthError
  | oauthFailed (e : HttpErr)
deriving DecidableEq, Repr

/-- SmartViewClient.authenticate (server.py lines 58-78): POST the
client-credentials grant to the token endpoint; on success set
access_token := data["access_token"], refresh_token := data.get("refresh_token"),
token_expiry := now + (int(data.get("token_timeout", 3600)) - 300); on any
httpx.HTTPError raise the wrapped exception, leaving the fields unchanged.
Returns (outcome, post-state, calls issued). -/
def authenticate (env : Env) (st : TokenState) :
    Except AuthError Unit × TokenState × List Call :=
  match env.tokenResp with
  | Except.error e => (Except.error (AuthError.oauthFailed e), st, [Call.tokenEndpoint])
  | Except.ok data =>
      (Except.ok (),
       ⟨Option.some data.access_token,
        data.refresh_token,
        Option.some (env.now + (data.token_timeout.getD 3600 - 300))⟩,
       [Call.tokenEndpoint])

/-- SmartViewClient.refresh_access_token (server.py lines 80-102): if the
held refresh token is falsy, delegate to authenticate; otherwise POST the
refresh exchange; on success replace the fields (keeping the old refresh
token when the response omits one); on any httpx.HTTPError fall back to
authenticate instead of surfacing the error. -/
def refresh_access_token (env : Env) (st : TokenState) :
    Except AuthError Unit × TokenState × List Call :=
  if pyTruthyStr st.refresh_token = false then
    authenticate env st
  else
    match env.refreshResp with
    | Except.ok data =>
        (Except.ok (),
         ⟨Option.some data.access_token,
          (match data.refresh_token with
           | Option.some r => Option.some r
           | Option.none => st.refresh_token),
          Option.some (env.now + (data.token_timeout.getD 3600 - 300))⟩,
         [Call.refreshEndpoint])
    | Except.error _ =>
        match authenticate env st with
        | (r, st2, calls) => (r, st2, Call.refreshEndpoint :: calls)

/-- SmartViewClient.ensure_valid_token (server.py lines 104-109): if the
access token is falsy or no expiry is recorded, authenticate; else if
now >= token_expiry, refresh; else do nothing. -/
def ensure_valid_token (env : Env) (st : TokenState) :
    Except AuthError Unit × TokenState × List Call :=
  if pyTruthyStr st.access_token = false ∨ st.token_expiry = Option.none then
    authenticate env st
  else
    match st.token_expiry with
    | Option.some expiry =>
        if expiry ≤ env.now then refresh_access_token env st
        else (Except.ok (), st, [])
    | Option.none => authenticate env st

/-- A parsed JSON document, the result of response.json() on a data
response. -/
inductive Json
  | null
  | jbool (b : Bool)
  | jnum (n : Int)
  | jstr (s : String)
  | jarr (xs : List Json)
  | jobj (fields : List (String × Json))
deriving Repr

/-- A data-endpoint HTTP response as the request primitive inspects it:
status code, the content-type header (response.headers.get with default
empty string), the body text, and the result of parsing the body as JSON
(none when response.json() would fail to decode). -/
structure DataResponse where
  status : Int
  content_type : String
  text : String
  json : Option Json

/-- httpx Response.is_success, the condition under which
raise_for_status does not raise: a 2xx status. -/
def is_success (status : Int) : Bool := decide (200 ≤ status ∧ status < 300)

/-- What a call to the request primitive hands back to the endpoint
method on success. -/
inductive RequestResult
  | json (j : Json)
  | text (s : String)

/-- The failures the request primitive can raise: a propagated
authentication failure from ensure_valid_token (raised before the try
block), the Exception carrying "API Error" with status and body text for
an HTTPStatusError, the Exception wrapping any other httpx.HTTPError, and
an uncaught JSON decode error from response.json(). -/
inductive RequestError
  | authFailed (e : AuthError)
  | apiError (status : Int) (body : String)
  | httpError (msg : String)
  | jsonDecodeError

/-- Does the first character list start with the second? -/
def charsStartWith : List Char → List Char → Bool
  | _, [] => true
  | [], _ :: _ => false
  | c :: cs, p :: ps => c = p && charsStartWith cs ps

/-- Python str.startswith, applied to the content-type header. -/
def strStartsWith (s pre : String) : Bool := charsStartWith s.data pre.data

/-- The expression `self._clean_params(query_params) if query_params else`
an empty dict, from server.py line 129: None and the empty dict are falsy
and yield no parameters. -/
def normalizeQP : Option (List (String × PValue)) → List (String × PValue)
  | Option.none => []
  | Option.some ps => if ps = [] then [] else _clean_params ps

/-- Specification-side summary of what the try block of the request
primitive produces from the data response, used to state theorems about
request without repeating its branches. -/
def requestDispatch : Except String DataResponse →
    Except RequestError RequestResult
  | Except.error msg => Except.error (RequestError.httpError msg)
  | Except.ok resp =>
      if is_success resp.status then
        if strStartsWith resp.content_type "application/json" then
          match resp.json with
          | Option.some j => Except.ok (RequestResult.json j)
          | Option.none => Except.error RequestError.jsonDecodeError
        else Except.ok (RequestResult.text resp.text)
      else Except.error (RequestError.apiError resp.status resp.text)

/-- SmartViewClient.request (server.py lines 122-141): ensure a valid
token (its exception propagates), normalize the query parameters (the
falsy-dict test means None and the empty dict both give no parameters),
issue the HTTP call, raise the API Error exception on a non-2xx status,
wrap other transport failures, and on success return the parsed JSON when
the content type starts with application/json, else the raw text.
`dataResp` is the oracle for the data call: either a transport failure
message or the response received. -/
def request (env : Env) (st : TokenState) (endpoint : String)
    (method : String) (body : Option Json)
    (query_params : Option (List (String × PValue)))
    (dataResp : Except String DataResponse) :
    Except RequestError RequestResult × TokenState × List Call :=
  match ensure_valid_token env st with
  | (Except.error e, st1, calls1) => (Except.error (RequestError.authFailed e), st1, calls1)
  | (Except.ok _, st1, calls1) =>
    let filtered_params := normalizeQP query_params
    let calls := calls1 ++ [Call.dataEndpoint method endpoint filtered_params]
    match dataResp with
    | Except.error msg => (Except.error (RequestError.httpError msg), st1, calls)
    | Except.ok resp =>
      if is_success resp.status then
        if strStartsWith resp.content_type "application/json" then
          match resp.json with
          | Option.some j => (Except.ok (RequestResult.json j), st1, calls)
          | Option.none => (Except.error RequestError.jsonDecodeError, st1, calls)
        else (Except.ok (RequestResult.text resp.text), st1, calls)
      else (Except.error (RequestError.apiError resp.status resp.text), st1, calls)

/-- Lift an Optional[str] argument to the query-parameter value the
endpoint methods place in their dict literals. -/
def optStr : Option String → PValue
  | Option.none => PValue.none
  | Option.some s => PValue.scalar (Scalar.str s)

/-- SmartViewClient.get_current_power (server.py lines 196-197): a GET to
/dcim/v1/power/current with the four-entry query dict. -/
def get_current_power (env : Env) (st : TokenState)
    (account_no ibx level_type : String) (level_value : Option String)
    (dataResp : Except String DataResponse) :
    Except RequestError RequestResult × TokenState × List Call :=
  request env st "/dcim/v1/power/current" "GET" Option.none
    (Option.some
      [("accountNo", PValue.scalar (Scalar.str account_no)),
       ("ibx", PValue.scalar (Scalar.str ibx)),
       ("levelType", PValue.scalar (Scalar.str level_type)),
       ("levelValue", optStr level_value)])
    dataResp

end SmartView

open SmartView

theorem dictInsert_of_not_mem (d : List (String × PValue)) (k : String)
    (v : PValue) (h : ∀ kv ∈ d, kv.1 ≠ k) :
    dictInsert d k v = d ++ [(k, v)] := by
  induction d with
  | nil => rfl
  | cons hd tl ih =>
      have hhd : hd.1 ≠ k := h hd (List.mem_cons_self hd tl)
      simp only [dictInsert, if_neg hhd, List.cons_append, List.cons.injEq, true_and]
      exact ih fun kv hkv => h kv (List.mem_cons_of_mem hd hkv)

theorem cleanStep_eq_cleanValue (cleaned : List (String × PValue))
    (kv : String × PValue) :
    cleanStep cleaned kv =
      match cleanValue kv.2 with
      | Option.none => cleaned
      | Option.some v => dictInsert cleaned kv.1 v := by
  obtain ⟨k, v⟩ := kv
  cases v with
  | none => rfl
  | scalar s =>
      cases s with
      | str s =>
          by_cases hs : s = ""
          · subst hs; rfl
          · simp only [cleanStep, cleanValue]
            rw [if_pos]
            · cases hs' : decide (s = "") with
              | false => simp_all
              | true => simp_all
            · refine ⟨by simp, by simp [hs], by simp⟩
      | int n => simp [cleanStep, cleanValue]
      | bool b => simp [cleanStep, cleanValue]
  | vlist xs =>
      cases xs with
      | nil => rfl
      | cons x xs => simp [cleanStep, cleanValue]

theorem cleanStep_of_drop (cleaned : List (String × PValue))
    (kv : String × PValue) (h : cleanValue kv.2 = Option.none) :
    cleanStep cleaned kv = cleaned := by
  rw [cleanStep_eq_cleanValue, h]

theorem cleanStep_of_keep (cleaned : List (String × PValue))
    (kv : String × PValue) (v : PValue) (h : cleanValue kv.2 = Option.some v) :
    cleanStep cleaned kv = dictInsert cleaned kv.1 v := by
  rw [cleanStep_eq_cleanValue, h]

theorem clean_params_go (params : List (String × PValue)) :
    ∀ acc : List (String × PValue),
      (params.map Prod.fst).Nodup →
      (∀ kv ∈ acc, kv.1 ∉ params.map Prod.fst) →
      params.foldl cleanStep acc
        = acc ++ params.filterMap
            (fun kv => (cleanValue kv.2).map fun v => (kv.1, v)) := by
  induction params with
  | nil => intro acc _ _; simp
  | cons hd tl ih =>
      intro acc hnd hdisj
      have hnd' : (hd.1 :: tl.map Prod.fst).Nodup := by
        simpa only [List.map_cons] using hnd
      have hhd_not_tl : hd.1 ∉ tl.map Prod.fst := (List.nodup_cons.mp hnd').1
      have htl_nd : (tl.map Prod.fst).Nodup := (List.nodup_cons.mp hnd').2
      simp only [List.foldl_cons]
      cases hcv : cleanValue hd.2 with
      | none =>
          rw [cleanStep_of_drop acc hd hcv]
          rw [ih acc htl_nd ?_]
          · simp [List.filterMap_cons, hcv]
          · intro kv hkv
            have := hdisj kv hkv
            simp only [List.map_cons, List.mem_cons, not_or] at this
            exact this.2
      | some v =>
          have hacc : ∀ kv ∈ acc, kv.1 ≠ hd.1 := by
            intro kv hkv
            have := hdisj kv hkv
            simp only [List.map_cons, List.mem_cons, not_or] at this
            exact this.1
          rw [cleanStep_of_keep acc hd v hcv]
          rw [dictInsert_of_not_mem acc hd.1 v hacc]
          rw [ih (acc ++ [(hd.1, v)]) htl_nd ?_]
          · simp [List.filterMap_cons, hcv]
          · intro kv hkv
            rcases List.mem_append.mp hkv with h | h
            · have := hdisj kv h
              simp only [List.map_cons, List.mem_cons, not_or] at this
              exact this.2
            · simp only [List.mem_singleton] at h
              subst h
              exact hhd_not_tl

theorem clean_params_eq_filterMap (params : List (String × PValue))
    (hnd : (params.map Prod.fst).Nodup) :
    _clean_params params
      = params.filterMap fun kv => (cleanValue kv.2).map fun v => (kv.1, v) := by
  have := clean_params_go params [] hnd (by simp)
  simpa [_clean_params] using this


/-- C1: _clean_params drops every entry whose value is None, the empty
string, or the empty list; serializes each list value into the comma-join
of the str() of its elements; passes every other scalar through
unchanged; and is a pure, order-preserving filter-map over the entries of
the mapping (a mapping, so the keys are distinct).  In particular the
list consisting of "a" and "b" normalizes to the string "a,b". -/
theorem clean_params_normalization (params : List (String × PValue))
    (hnd : (params.map Prod.fst).Nodup) :
    SmartView._clean_params params
      = params.filterMap (fun kv => (cleanValue kv.2).map fun v => (kv.1, v)) ∧
    cleanValue PValue.none = Option.none ∧
    cleanValue (PValue.scalar (Scalar.str "")) = Option.none ∧
    cleanValue (PValue.vlist []) = Option.none ∧
    (∀ xs : List Scalar, xs ≠ [] →
      cleanValue (PValue.vlist xs)
        = Option.some (PValue.scalar (Scalar.str
            (String.intercalate "," (xs.map pyStr))))) ∧
    (∀ v : Scalar, v ≠ Scalar.str "" →
      cleanValue (PValue.scalar v) = Option.some (PValue.scalar v)) ∧
    cleanValue (PValue.vlist [Scalar.str "a", Scalar.str "b"])
      = Option.some (PValue.scalar (Scalar.str "a,b")) := by
  refine ⟨clean_params_eq_filterMap params hnd, rfl, rfl, rfl, ?_, ?_, by decide⟩
  · intro xs hxs
    cases xs with
    | nil => exact absurd rfl hxs
    | cons x rest => rfl
  · intro v hv
    cases v with
    | str s =>
        have hs : s ≠ "" := fun h => hv (by rw [h])
        simp only [cleanValue]
        split <;> simp_all
    | int n => rfl
    | bool b => rfl

/-- Witness for C1 at a concrete two-entry mapping. -/
theorem clean_params_normalization_witness :
    (([("a", PValue.scalar (Scalar.int 7)),
       ("b", PValue.none)] : List (String × PValue)).map Prod.fst).Nodup ∧
    SmartView._clean_params
        [("a", PValue.scalar (Scalar.int 7)), ("b", PValue.none)]
      = ([("a", PValue.scalar (Scalar.int 7)),
          ("b", PValue.none)] : List (String × PValue)).filterMap
          (fun kv => (cleanValue kv.2).map fun v => (kv.1, v)) :=
  ⟨by decide,
   (clean_params_normalization
      [("a", PValue.scalar (Scalar.int 7)), ("b", PValue.none)] (by decide)).1⟩

/-- C10: normalization keeps scalar values that are Python-falsy but not
None, the empty string, or the empty list: the integer 0 and the boolean
False survive _clean_params unchanged. -/
theorem clean_params_keeps_falsy_scalars (params : List (String × PValue))
    (hnd : (params.map Prod.fst).Nodup) (k : String) :
    ((k, PValue.scalar (Scalar.int 0)) ∈ params →
      (k, PValue.scalar (Scalar.int 0)) ∈ SmartView._clean_params params) ∧
    ((k, PValue.scalar (Scalar.bool false)) ∈ params →
      (k, PValue.scalar (Scalar.bool false)) ∈ SmartView._clean_params params) := by
  rw [clean_params_eq_filterMap params hnd]
  constructor
  · intro hmem
    exact List.mem_filterMap.mpr ⟨(k, PValue.scalar (Scalar.int 0)), hmem, rfl⟩
  · intro hmem
    exact List.mem_filterMap.mpr ⟨(k, PValue.scalar (Scalar.bool false)), hmem, rfl⟩

/-- Witness for C10: offset 0 is kept by normalization. -/
theorem clean_params_keeps_falsy_scalars_witness :
    (([("offset", PValue.scalar (Scalar.int 0)),
       ("limit", PValue.none)] : List (String × PValue)).map Prod.fst).Nodup ∧
    ("offset", PValue.scalar (Scalar.int 0)) ∈
      SmartView._clean_params
        [("offset", PValue.scalar (Scalar.int 0)), ("limit", PValue.none)] :=
  ⟨by decide,
   (clean_params_keeps_falsy_scalars
      [("offset", PValue.scalar (Scalar.int 0)), ("limit", PValue.none)]
      (by decide) "offset").1 (by decide)⟩

/-- C2: ensure_valid_token dispatches exactly as the spec says: with no
usable access token (the field is None or empty, Python falsiness) or no
recorded expiry it behaves as authenticate; with a token and an expiry at
or before the current time it behaves as refresh_access_token; with a
token and an expiry strictly in the future it makes no call and leaves
the state unchanged. -/
theorem ensure_valid_token_dispatch (env : Env) (st : TokenState) :
    ((pyTruthyStr st.access_token = false ∨ st.token_expiry = Option.none) →
      ensure_valid_token env st = authenticate env st) ∧
    (∀ expiry : Int, pyTruthyStr st.access_token = true →
      st.token_expiry = Option.some expiry →
      (expiry ≤ env.now →
        ensure_valid_token env st = refresh_access_token env st) ∧
      (env.now < expiry →
        ensure_valid_token env st = (Except.ok (), st, []))) := by
  constructor
  · intro h
    unfold ensure_valid_token
    rw [if_pos h]
  · intro expiry htok hexp
    have hcond :
        ¬(pyTruthyStr st.access_token = false ∨ st.token_expiry = Option.none) := by
      simp [htok, hexp]
    constructor
    · intro hle
      unfold ensure_valid_token
      rw [if_neg hcond]
      simp only [hexp]
      rw [if_pos hle]
    · intro hlt
      unfold ensure_valid_token
      rw [if_neg hcond]
      simp only [hexp]
      rw [if_neg (by omega)]

/-- Witness for C2: a held token with expiry 100 at current time 50
yields no call and an unchanged state. -/
theorem ensure_valid_token_dispatch_witness :
    pyTruthyStr (Option.some "tok") = true ∧ (50 : Int) < 100 ∧
    ensure_valid_token
        ⟨50, Except.error (HttpErr.transportError "down"),
         Except.error (HttpErr.transportError "down")⟩
        ⟨Option.some "tok", Option.none, Option.some 100⟩
      = (Except.ok (), ⟨Option.some "tok", Option.none, Option.some 100⟩, []) :=
  ⟨by decide, by decide,
   ((ensure_valid_token_dispatch
       ⟨50, Except.error (HttpErr.transportError "down"),
        Except.error (HttpErr.transportError "down")⟩
       ⟨Option.some "tok", Option.none, Option.some 100⟩).2
      100 (by decide) rfl).2 (by decide)⟩

/-- C3: on every successful authenticate or refresh (whichever exchange
supplied the response), the stored expiry is the issue instant plus the
reported token_timeout (default 3600 when omitted) minus 300 seconds; with
token_timeout 3600 this is the issue instant plus 3300. -/
theorem token_expiry_margin (env : Env) (st : TokenState) :
    (∀ data : TokenResponse, env.tokenResp = Except.ok data →
      (authenticate env st).2.1.token_expiry
          = Option.some (env.now + (data.token_timeout.getD 3600 - 300)) ∧
      (data.token_timeout = Option.some 3600 →
        (authenticate env st).2.1.token_expiry = Option.some (env.now + 3300)) ∧
      (data.token_timeout = Option.none →
        (authenticate env st).2.1.token_expiry = Option.some (env.now + 3300))) ∧
    (∀ data : TokenResponse, pyTruthyStr st.refresh_token = true →
      env.refreshResp = Except.ok data →
      (refresh_access_token env st).2.1.token_expiry
        = Option.some (env.now + (data.token_timeout.getD 3600 - 300))) ∧
    (∀ (e : HttpErr) (data : TokenResponse),
      env.refreshResp = Except.error e → env.tokenResp = Except.ok data →
      (refresh_access_token env st).2.1.token_expiry
        = Option.some (env.now + (data.token_timeout.getD 3600 - 300))) ∧
    (∀ data : TokenResponse, pyTruthyStr st.refresh_token = false →
      env.tokenResp = Except.ok data →
      (refresh_access_token env st).2.1.token_expiry
        = Option.some (env.now + (data.token_timeout.getD 3600 - 300))) := by
  refine ⟨?_, ?_, ?_, ?_⟩
  · intro data hdata
    refine ⟨by simp [authenticate, hdata], ?_, ?_⟩
    · intro ht; simp [authenticate, hdata, ht]
    · intro ht; simp [authenticate, hdata, ht]
  · intro data htok hdata
    simp [refresh_access_token, htok, hdata]
  · intro e data herr hdata
    by_cases htok : pyTruthyStr st.refresh_token = false
    · simp [refresh_access_token, htok, authenticate, hdata]
    · simp [refresh_access_token, htok, herr, authenticate, hdata]
  · intro data htok hdata
    simp [refresh_access_token, htok, authenticate, hdata]

/-- Witness for C3: token_timeout 3600 issued at instant 0 stores expiry
3300. -/
theorem token_expiry_margin_witness :
    (⟨0, Except.ok ⟨"tok", Option.none, Option.some 3600⟩,
      Except.error (HttpErr.transportError "down")⟩ : Env).tokenResp
        = Except.ok ⟨"tok", Option.none, Option.some 3600⟩ ∧
    (authenticate
        ⟨0, Except.ok ⟨"tok", Option.none, Option.some 3600⟩,
         Except.error (HttpErr.transportError "down")⟩
        TokenState.empty).2.1.token_expiry = Option.some 3300 :=
  ⟨rfl,
   ((token_expiry_margin
       ⟨0, Except.ok ⟨"tok", Option.none, Option.some 3600⟩,
        Except.error (HttpErr.transportError "down")⟩
       TokenState.empty).1 ⟨"tok", Option.none, Option.some 3600⟩ rfl).2.1 rfl⟩

/-- C4: with no held refresh token (the field is None or empty, Python
falsiness), refresh_access_token is the very same computation as
authenticate: same result, same post-state, same single request to the
token endpoint and none to the refresh endpoint. -/
theorem refresh_without_token_is_authenticate (env : Env) (st : TokenState)
    (h : pyTruthyStr st.refresh_token = false) :
    refresh_access_token env st = authenticate env st := by
  unfold refresh_access_token
  rw [if_pos h]

/-- Witness for C4 on the empty token state. -/
theorem refresh_without_token_is_authenticate_witness :
    pyTruthyStr (TokenState.empty).refresh_token = false ∧
    refresh_access_token
        ⟨0, Except.ok ⟨"tok", Option.none, Option.none⟩,
         Except.error (HttpErr.transportError "down")⟩ TokenState.empty
      = authenticate
          ⟨0, Except.ok ⟨"tok", Option.none, Option.none⟩,
           Except.error (HttpErr.transportError "down")⟩ TokenState.empty :=
  ⟨by decide,
   refresh_without_token_is_authenticate
     ⟨0, Except.ok ⟨"tok", Option.none, Option.none⟩,
      Except.error (HttpErr.transportError "down")⟩ TokenState.empty (by decide)⟩

theorem authenticate_calls_eq (env : Env) (st : TokenState) :
    (authenticate env st).2.2 = [Call.tokenEndpoint] := by
  rcases h : env.tokenResp with e | data <;> simp [authenticate, h]

theorem refresh_fallback_eq (env : Env) (st : TokenState)
    (hrt : pyTruthyStr st.refresh_token = true) (e : HttpErr)
    (hfail : env.refreshResp = Except.error e) :
    refresh_access_token env st
      = ((authenticate env st).1, (authenticate env st).2.1,
         Call.refreshEndpoint :: (authenticate env st).2.2) := by
  unfold refresh_access_token
  rw [if_neg (by simp [hrt]), hfail]

theorem authenticate_calls_no_data (env : Env) (st : TokenState) :
    ∀ c ∈ (authenticate env st).2.2, c.isData = false := by
  rw [authenticate_calls_eq]
  intro c hc
  rw [List.mem_singleton] at hc
  rw [hc]
  rfl

theorem refresh_calls_no_data (env : Env) (st : TokenState) :
    ∀ c ∈ (refresh_access_token env st).2.2, c.isData = false := by
  by_cases hrt : pyTruthyStr st.refresh_token = false
  · unfold refresh_access_token
    rw [if_pos hrt]
    exact authenticate_calls_no_data env st
  · rcases h : env.refreshResp with e | data
    · rw [refresh_fallback_eq env st (by simpa using hrt) e h]
      intro c hc
      rcases List.mem_cons.mp hc with hc | hc
      · rw [hc]; rfl
      · exact authenticate_calls_no_data env st c hc
    · unfold refresh_access_token
      rw [if_neg hrt, h]
      intro c hc
      rw [List.mem_singleton] at hc
      rw [hc]
      rfl

theorem ensure_calls_no_data (env : Env) (st : TokenState) :
    ∀ c ∈ (ensure_valid_token env st).2.2, c.isData = false := by
  unfold ensure_valid_token
  by_cases hc : pyTruthyStr st.access_token = false ∨ st.token_expiry = Option.none
  · rw [if_pos hc]
    exact authenticate_calls_no_data env st
  · rw [if_neg hc]
    rcases hexp : st.token_expiry with _ | expiry
    · simp only []
      exact authenticate_calls_no_data env st
    · simp only []
      by_cases hle : expiry ≤ env.now
      · rw [if_pos hle]
        exact refresh_calls_no_data env st
      · rw [if_neg hle]
        intro c hc
        simp at hc

theorem request_unfold (env : Env) (st : TokenState) (endpoint method : String)
    (body : Option Json) (query_params : Option (List (String × PValue)))
    (dataResp : Except String DataResponse) (st1 : TokenState)
    (calls1 : List Call)
    (hok : ensure_valid_token env st = (Except.ok (), st1, calls1)) :
    request env st endpoint method body query_params dataResp
      = (requestDispatch dataResp, st1,
         calls1 ++ [Call.dataEndpoint method endpoint
           (normalizeQP query_params)]) := by
  unfold request
  rw [hok]
  rcases dataResp with msg | resp
  · rfl
  · unfold requestDispatch
    by_cases h1 : is_success resp.status
    · by_cases h2 : strStartsWith resp.content_type "application/json"
      · rcases hj : resp.json with _ | j <;> simp [h1, h2, hj]
      · simp [h1, h2]
    · simp [h1]

/-- Counterexample to C5 as stated: at instant 1000, a refresh whose
exchange fails with a 401 falls back to one authenticate call, the
fallback succeeds, yet because the fallback response reports
token_timeout 100 the stored expiry is 800, which is not in the future,
so the token state does not end Valid. -/
theorem refresh_fallback_counterexample :
    (refresh_access_token
        ⟨1000, Except.ok ⟨"tok2", Option.none, Option.some 100⟩,
         Except.error (HttpErr.statusError 401 "unauthorized")⟩
        ⟨Option.some "tok", Option.some "r", Option.some 500⟩).1
      = Except.ok () ∧
    (refresh_access_token
        ⟨1000, Except.ok ⟨"tok2", Option.none, Option.some 100⟩,
         Except.error (HttpErr.statusError 401 "unauthorized")⟩
        ⟨Option.some "tok", Option.some "r", Option.some 500⟩).2.2
      = [Call.refreshEndpoint, Call.tokenEndpoint] ∧
    (refresh_access_token
        ⟨1000, Except.ok ⟨"tok2", Option.none, Option.some 100⟩,
         Except.error (HttpErr.statusError 401 "unauthorized")⟩
        ⟨Option.some "tok", Option.some "r", Option.some 500⟩).2.1.token_expiry
      = Option.some 800 ∧
    ¬ ((1000 : Int) < 800) :=
  ⟨rfl, rfl, rfl, by decide⟩

/-- C5 (amended): when the refresh exchange fails, the failure is never
surfaced: the whole call behaves as one fallback authenticate (same
result and post-state), issuing exactly the failed refresh request
followed by exactly one authenticate request; if the fallback succeeds
the state holds the new access token with expiry equal to the fallback
instant plus the reported token_timeout (default 3600) minus 300, which
is a future instant whenever the reported token_timeout exceeds 300
seconds. -/
theorem refresh_fallback_recovers (env : Env) (st : TokenState)
    (hrt : pyTruthyStr st.refresh_token = true) (e : HttpErr)
    (hfail : env.refreshResp = Except.error e) :
    refresh_access_token env st
      = ((authenticate env st).1, (authenticate env st).2.1,
         Call.refreshEndpoint :: (authenticate env st).2.2) ∧
    (authenticate env st).2.2 = [Call.tokenEndpoint] ∧
    (∀ data : TokenResponse, env.tokenResp = Except.ok data →
      (refresh_access_token env st).1 = Except.ok () ∧
      (refresh_access_token env st).2.1
        = ⟨Option.some data.access_token, data.refresh_token,
           Option.some (env.now + (data.token_timeout.getD 3600 - 300))⟩ ∧
      (300 < data.token_timeout.getD 3600 →
        env.now < env.now + (data.token_timeout.getD 3600 - 300))) := by
  have h1 := refresh_fallback_eq env st hrt e hfail
  refine ⟨h1, authenticate_calls_eq env st, ?_⟩
  intro data hdata
  have ha : authenticate env st
      = (Except.ok (),
         ⟨Option.some data.access_token, data.refresh_token,
          Option.some (env.now + (data.token_timeout.getD 3600 - 300))⟩,
         [Call.tokenEndpoint]) := by
    unfold authenticate
    rw [hdata]
  refine ⟨?_, ?_, ?_⟩
  · rw [h1, ha]
  · rw [h1, ha]
  · intro h300
    omega

/-- Witness for the amended C5: same failing refresh, fallback reporting
token_timeout 3600, ending with the token held and a future expiry. -/
theorem refresh_fallback_recovers_witness :
    pyTruthyStr (Option.some "r") = true ∧
    (refresh_access_token
        ⟨1000, Except.ok ⟨"tok2", Option.none, Option.some 3600⟩,
         Except.error (HttpErr.statusError 401 "unauthorized")⟩
        ⟨Option.some "tok", Option.some "r", Option.some 500⟩).2.2
      = [Call.refreshEndpoint, Call.tokenEndpoint] ∧
    (refresh_access_token
        ⟨1000, Except.ok ⟨"tok2", Option.none, Option.some 3600⟩,
         Except.error (HttpErr.statusError 401 "unauthorized")⟩
        ⟨Option.some "tok", Option.some "r", Option.some 500⟩).1
      = Except.ok () ∧
    (refresh_access_token
        ⟨1000, Except.ok ⟨"tok2", Option.none, Option.some 3600⟩,
         Except.error (HttpErr.statusError 401 "unauthorized")⟩
        ⟨Option.some "tok", Option.some "r", Option.some 500⟩).2.1.token_expiry
      = Option.some 4300 ∧
    (1000 : Int) < 4300 := by
  have h := refresh_fallback_recovers
    ⟨1000, Except.ok ⟨"tok2", Option.none, Option.some 3600⟩,
     Except.error (HttpErr.statusError 401 "unauthorized")⟩
    ⟨Option.some "tok", Option.some "r", Option.some 500⟩
    (by decide) (HttpErr.statusError 401 "unauthorized") rfl
  refine ⟨by decide, ?_, (h.2.2 ⟨"tok2", Option.none, Option.some 3600⟩ rfl).1,
    ?_, by decide⟩
  · rw [h.1, h.2.1]
  · rw [(h.2.2 ⟨"tok2", Option.none, Option.some 3600⟩ rfl).2.1]
    decide

/-- C6: a data call through the request primitive that receives a non-2xx
response fails with the API Error carrying that numeric status and the
raw response body text, the trace shows the single data request with no
retry, and the error is the returned outcome, not swallowed. -/
theorem request_non2xx_api_error (env : Env) (st : TokenState)
    (endpoint method : String) (body : Option Json)
    (qp : Option (List (String × PValue))) (resp : DataResponse)
    (st1 : TokenState) (calls1 : List Call)
    (hok : ensure_valid_token env st = (Except.ok (), st1, calls1))
    (hstatus : is_success resp.status = false) :
    (request env st endpoint method body qp (Except.ok resp)).1
      = Except.error (RequestError.apiError resp.status resp.text) ∧
    (request env st endpoint method body qp (Except.ok resp)).2.2
      = calls1 ++ [Call.dataEndpoint method endpoint (normalizeQP qp)] ∧
    ((request env st endpoint method body qp (Except.ok resp)).2.2.countP
        Call.isData) = 1 := by
  have hu := request_unfold env st endpoint method body qp (Except.ok resp)
    st1 calls1 hok
  have hd : requestDispatch (Except.ok resp)
      = Except.error (RequestError.apiError resp.status resp.text) := by
    simp [requestDispatch, hstatus]
  refine ⟨by rw [hu, hd], by rw [hu], ?_⟩
  rw [hu]
  have hz : calls1.countP Call.isData = 0 := by
    rw [List.countP_eq_zero]
    intro c hc
    have hcd := ensure_calls_no_data env st c (by rw [hok]; exact hc)
    simp [hcd]
  simp [List.countP_append, hz, List.countP_cons, Call.isData]

/-- Witness for C6: with a currently valid token, a 404 with body
"not found" surfaces the API Error 404 with that body, after exactly one
data request. -/
theorem request_non2xx_api_error_witness :
    ensure_valid_token
        ⟨50, Except.error (HttpErr.transportError "down"),
         Except.error (HttpErr.transportError "down")⟩
        ⟨Option.some "tok", Option.none, Option.some 100⟩
      = (Except.ok (), ⟨Option.some "tok", Option.none, Option.some 100⟩, []) ∧
    is_success 404 = false ∧
    (request
        ⟨50, Except.error (HttpErr.transportError "down"),
         Except.error (HttpErr.transportError "down")⟩
        ⟨Option.some "tok", Option.none, Option.some 100⟩
        "/dcim/v1/power/current" "GET" Option.none Option.none
        (Except.ok ⟨404, "text/plain", "not found", Option.none⟩)).1
      = Except.error (RequestError.apiError 404 "not found") ∧
    ((request
        ⟨50, Except.error (HttpErr.transportError "down"),
         Except.error (HttpErr.transportError "down")⟩
        ⟨Option.some "tok", Option.none, Option.some 100⟩
        "/dcim/v1/power/current" "GET" Option.none Option.none
        (Except.ok ⟨404, "text/plain", "not found", Option.none⟩)).2.2.countP
        Call.isData) = 1 := by
  have h := request_non2xx_api_error
    ⟨50, Except.error (HttpErr.transportError "down"),
     Except.error (HttpErr.transportError "down")⟩
    ⟨Option.some "tok", Option.none, Option.some 100⟩
    "/dcim/v1/power/current" "GET" Option.none Option.none
    ⟨404, "text/plain", "not found", Option.none⟩
    ⟨Option.some "tok", Option.none, Option.some 100⟩ [] rfl rfl
  exact ⟨rfl, rfl, h.1, h.2.2⟩

/-- C7: the three token fields start out empty and are only ever replaced
together: authenticate either fails and leaves the state exactly as it
was, or succeeds and sets all three fields from the response; likewise
refresh_access_token either fails leaving the state unchanged or succeeds
with a state whose access token and expiry are freshly set. -/
theorem token_state_wholesale (env : Env) (st : TokenState) :
    TokenState.empty.access_token = Option.none ∧
    TokenState.empty.refresh_token = Option.none ∧
    TokenState.empty.token_expiry = Option.none ∧
    ((∃ e, (authenticate env st).1 = Except.error e ∧
        (authenticate env st).2.1 = st) ∨
     (∃ data, env.tokenResp = Except.ok data ∧
        (authenticate env st).1 = Except.ok () ∧
        (authenticate env st).2.1
          = ⟨Option.some data.access_token, data.refresh_token,
             Option.some (env.now + (data.token_timeout.getD 3600 - 300))⟩)) ∧
    ((∃ e, (refresh_access_token env st).1 = Except.error e ∧
        (refresh_access_token env st).2.1 = st) ∨
     ((refresh_access_token env st).1 = Except.ok () ∧
      ∃ a r x, (refresh_access_token env st).2.1
        = ⟨Option.some a, r, Option.some x⟩)) := by
  have hauth : ((∃ e, (authenticate env st).1 = Except.error e ∧
        (authenticate env st).2.1 = st) ∨
      (∃ data, env.tokenResp = Except.ok data ∧
        (authenticate env st).1 = Except.ok () ∧
        (authenticate env st).2.1
          = ⟨Option.some data.access_token, data.refresh_token,
             Option.some (env.now + (data.token_timeout.getD 3600 - 300))⟩)) := by
    rcases h : env.tokenResp with e | data
    · exact Or.inl ⟨AuthError.oauthFailed e,
        by simp [authenticate, h], by simp [authenticate, h]⟩
    · exact Or.inr ⟨data, rfl, by simp [authenticate, h], by simp [authenticate, h]⟩
  refine ⟨rfl, rfl, rfl, hauth, ?_⟩
  have hauth' : ((∃ e, (authenticate env st).1 = Except.error e ∧
        (authenticate env st).2.1 = st) ∨
      ((authenticate env st).1 = Except.ok () ∧
       ∃ a r x, (authenticate env st).2.1 = ⟨Option.some a, r, Option.some x⟩)) := by
    rcases hauth with ⟨e, h1, h2⟩ | ⟨data, _, h1, h2⟩
    · exact Or.inl ⟨e, h1, h2⟩
    · exact Or.inr ⟨h1, data.access_token, data.refresh_token, _, h2⟩
  by_cases hrt : pyTruthyStr st.refresh_token = false
  · have heq : refresh_access_token env st = authenticate env st := by
      unfold refresh_access_token
      rw [if_pos hrt]
    rw [heq]
    exact hauth'
  · rcases h : env.refreshResp with e | data
    · have heq := refresh_fallback_eq env st (by simpa using hrt) e h
      rw [heq]
      rcases hauth' with ⟨e', h1, h2⟩ | ⟨h1, a, r, x, h2⟩
      · exact Or.inl ⟨e', h1, h2⟩
      · exact Or.inr ⟨h1, a, r, x, h2⟩
    · refine Or.inr ⟨by simp [refresh_access_token, hrt, h], ?_⟩
      refine ⟨data.access_token,
        (match data.refresh_token with
         | Option.some r => Option.some r
         | Option.none => st.refresh_token),
        env.now + (data.token_timeout.getD 3600 - 300), ?_⟩
      simp [refresh_access_token, hrt, h]

/-- C8: a successful (2xx) data response yields the parsed JSON payload
exactly when the declared content type is JSON, and the raw body text
verbatim otherwise; in both cases the payload is handed back untouched,
with no validation. -/
theorem request_success_payload (env : Env) (st : TokenState)
    (endpoint method : String) (body : Option Json)
    (qp : Option (List (String × PValue))) (resp : DataResponse)
    (st1 : TokenState) (calls1 : List Call)
    (hok : ensure_valid_token env st = (Except.ok (), st1, calls1))
    (hstatus : is_success resp.status = true) :
    (∀ j, strStartsWith resp.content_type "application/json" = true →
      resp.json = Option.some j →
      (request env st endpoint method body qp (Except.ok resp)).1
        = Except.ok (RequestResult.json j)) ∧
    (strStartsWith resp.content_type "application/json" = false →
      (request env st endpoint method body qp (Except.ok resp)).1
        = Except.ok (RequestResult.text resp.text)) := by
  have hu := request_unfold env st endpoint method body qp (Except.ok resp)
    st1 calls1 hok
  constructor
  · intro j hct hj
    have hd : requestDispatch (Except.ok resp)
        = Except.ok (RequestResult.json j) := by
      simp [requestDispatch, hstatus, hct, hj]
    rw [hu, hd]
  · intro hct
    have hd : requestDispatch (Except.ok resp)
        = Except.ok (RequestResult.text resp.text) := by
      simp [requestDispatch, hstatus, hct]
    rw [hu, hd]

/-- Witness for C8: a 200 response declaring application/json hands back
the parsed JSON document. -/
theorem request_success_payload_witness :
    ensure_valid_token
        ⟨50, Except.error (HttpErr.transportError "down"),
         Except.error (HttpErr.transportError "down")⟩
        ⟨Option.some "tok", Option.none, Option.some 100⟩
      = (Except.ok (), ⟨Option.some "tok", Option.none, Option.some 100⟩, []) ∧
    is_success 200 = true ∧
    (request
        ⟨50, Except.error (HttpErr.transportError "down"),
         Except.error (HttpErr.transportError "down")⟩
        ⟨Option.some "tok", Option.none, Option.some 100⟩
        "/dcim/v1/power/current" "GET" Option.none Option.none
        (Except.ok ⟨200, "application/json", "raw", Option.some (Json.jstr "ok")⟩)).1
      = Except.ok (RequestResult.json (Json.jstr "ok")) :=
  ⟨rfl, rfl,
   (request_success_payload
      ⟨50, Except.error (HttpErr.transportError "down"),
       Except.error (HttpErr.transportError "down")⟩
      ⟨Option.some "tok", Option.none, Option.some 100⟩
      "/dcim/v1/power/current" "GET" Option.none Option.none
      ⟨200, "application/json", "raw", Option.some (Json.jstr "ok")⟩
      ⟨Option.some "tok", Option.none, Option.some 100⟩ [] rfl rfl).1
     (Json.jstr "ok") (by decide) rfl⟩

/-- C9: get_current_power with accountNo 123, ibx SV5, levelType cage and
no levelValue issues one GET to /dcim/v1/power/current whose normalized
query parameters are exactly accountNo, ibx and levelType with those
values, with no levelValue key. -/
theorem get_current_power_builds_request (env : Env) (st : TokenState)
    (dataResp : Except String DataResponse) (st1 : TokenState)
    (calls1 : List Call)
    (hok : ensure_valid_token env st = (Except.ok (), st1, calls1)) :
    (get_current_power env st "123" "SV5" "cage" Option.none dataResp).2.2
      = calls1 ++ [Call.dataEndpoint "GET" "/dcim/v1/power/current"
          [("accountNo", PValue.scalar (Scalar.str "123")),
           ("ibx", PValue.scalar (Scalar.str "SV5")),
           ("levelType", PValue.scalar (Scalar.str "cage"))]] := by
  have hu := request_unfold env st "/dcim/v1/power/current" "GET" Option.none
    (Option.some
      [("accountNo", PValue.scalar (Scalar.str "123")),
       ("ibx", PValue.scalar (Scalar.str "SV5")),
       ("levelType", PValue.scalar (Scalar.str "cage")),
       ("levelValue", optStr Option.none)])
    dataResp st1 calls1 hok
  have hqp : normalizeQP (Option.some
      [("accountNo", PValue.scalar (Scalar.str "123")),
       ("ibx", PValue.scalar (Scalar.str "SV5")),
       ("levelType", PValue.scalar (Scalar.str "cage")),
       ("levelValue", optStr Option.none)])
      = [("accountNo", PValue.scalar (Scalar.str "123")),
         ("ibx", PValue.scalar (Scalar.str "SV5")),
         ("levelType", PValue.scalar (Scalar.str "cage"))] := by decide
  unfold get_current_power
  rw [hu, hqp]

/-- Witness for C9 with a valid held token, so the data request is the
only call in the trace. -/
theorem get_current_power_builds_request_witness :
    ensure_valid_token
        ⟨50, Except.error (HttpErr.transportError "down"),
         Except.error (HttpErr.transportError "down")⟩
        ⟨Option.some "tok", Option.none, Option.some 100⟩
      = (Except.ok (), ⟨Option.some "tok", Option.none, Option.some 100⟩, []) ∧
    (get_current_power
        ⟨50, Except.error (HttpErr.transportError "down"),
         Except.error (HttpErr.transportError "down")⟩
        ⟨Option.some "tok", Option.none, Option.some 100⟩
        "123" "SV5" "cage" Option.none
        (Except.error "down")).2.2
      = [Call.dataEndpoint "GET" "/dcim/v1/power/current"
          [("accountNo", PValue.scalar (Scalar.str "123")),
           ("ibx", PValue.scalar (Scalar.str "SV5")),
           ("levelType", PValue.scalar (Scalar.str "cage"))]] :=
  ⟨rfl,
   get_current_power_builds_request
     ⟨50, Except.error (HttpErr.transportError "down"),
      Except.error (HttpErr.transportError "down")⟩
     ⟨Option.some "tok", Option.none, Option.some 100⟩
     (Except.error "down")
     ⟨Option.some "tok", Option.none, Option.some 100⟩ [] rfl⟩
